import Mathlib

set_option maxRecDepth 100000

/-!
Verification of the ImpactCoach core services (impact engine, recommendation
engine, message parser) against their natural-language specification.

The Python modules `backend/services/impact_engine.py`,
`backend/services/recommendation.py` and `backend/services/chatbot.py` are
shallowly embedded below.  Python floats are modelled by `ℚ` (all constants in
the source are exact decimals), Python dicts by association lists in insertion
order, and raised exceptions by `Except`.  The JSON factor tables
(`backend/data/emission_factors.json`, `backend/data/product_factors.json`) are
not part of the sources; every function that reads them is therefore
parameterised by a `Tables` value, and a concrete table modelled from the spec
is used for concrete evaluations.
-/

namespace ImpactCoach

/-- Python `round(x, p)`: round half to even at `p` decimal places. -/
def roundHalfEven (q : ℚ) : ℤ :=
  let f : ℤ := ⌊q⌋
  let r : ℚ := q - f
  if r < 1/2 then f
  else if r > 1/2 then f + 1
  else if f % 2 = 0 then f else f + 1

/-- `roundTo p q` models Python `round(q, p)` on exact decimal values. -/
def roundTo (p : ℕ) (q : ℚ) : ℚ :=
  (roundHalfEven (q * 10 ^ p) : ℚ) / 10 ^ p

/-! ## Raw factor tables (shape of the JSON reference data) -/

/-- One entry of `emission_factors.json` under `"mobility"`. -/
structure MobilityEntry where
  co2e_kg_per_km : ℚ
  water_l_per_km : ℚ
  description : String
deriving DecidableEq

/-- One entry of `emission_factors.json` under `"home_energy"`. -/
structure EnergyEntry where
  co2e_kg_per_unit : ℚ
  unit : String
  description : String
deriving DecidableEq

/-- One entry of `product_factors.json` under `"purchase"` subcategories. -/
structure PurchaseEntry where
  co2e_kg_per_unit : ℚ
  water_l_per_unit : ℚ
  unit : String
  description : String
deriving DecidableEq

/-- The two loaded JSON tables, dicts modelled as insertion-ordered
association lists. -/
structure Tables where
  mobility : List (String × MobilityEntry)
  home_energy : List (String × EnergyEntry)
  purchase : List (String × List (String × PurchaseEntry))
deriving DecidableEq

/-- The normalised factor dict returned by `get_factor`. -/
structure Factor where
  co2e_per_unit : ℚ
  water_per_unit : ℚ
  unit : String
  description : String
deriving DecidableEq

/-- Payload of a raised `FactorNotFoundError` (category and normalised item). -/
structure FactorError where
  category : String
  item : String
deriving DecidableEq

instance {ε α : Type} [DecidableEq ε] [DecidableEq α] : DecidableEq (Except ε α) := fun a b =>
  match a, b with
  | .error x, .error y =>
    if h : x = y then .isTrue (congrArg Except.error h)
    else .isFalse (fun hh => h (Except.error.inj hh))
  | .error _, .ok _ => .isFalse (fun hh => Except.noConfusion hh)
  | .ok _, .error _ => .isFalse (fun hh => Except.noConfusion hh)
  | .ok x, .ok y =>
    if h : x = y then .isTrue (congrArg Except.ok h)
    else .isFalse (fun hh => h (Except.ok.inj hh))

/-- Linear scan of all purchase subcategories, skipping `"metadata"`
(`impact_engine.py` lines 94-105). -/
def scanSubcats (item : String) : List (String × List (String × PurchaseEntry)) → Option PurchaseEntry
  | [] => none
  | (name, items) :: rest =>
    if name == "metadata" then scanSubcats item rest
    else
      match items.lookup item with
      | some e => some e
      | none => scanSubcats item rest

/-- Purchase lookup: the given subcategory first (Python truthiness: `None`
and `""` skip this phase), then a scan of all subcategories
(`impact_engine.py` lines 79-105). -/
def purchaseLookup (pd : List (String × List (String × PurchaseEntry)))
    (item : String) (sub : Option String) : Option PurchaseEntry :=
  let fromSub : Option PurchaseEntry :=
    match sub with
    | some s =>
      if s == "" then none
      else
        match pd.lookup s with
        | some items => items.lookup item
        | none => none
    | none => none
  match fromSub with
  | some e => some e
  | none => scanSubcats item pd

/-- `get_factor(category, item, subcategory)` from `impact_engine.py`
lines 40-107.  `Except.error` models a raised `FactorNotFoundError`. -/
def getFactor (t : Tables) (category item : String) (sub : Option String) :
    Except FactorError Factor :=
  let it := item.toLower.trim
  if category == "mobility" then
    match t.mobility.lookup it with
    | some d => .ok ⟨d.co2e_kg_per_km, d.water_l_per_km, "km", d.description⟩
    | none => .error ⟨category, it⟩
  else if category == "home_energy" then
    match t.home_energy.lookup it with
    | some d => .ok ⟨d.co2e_kg_per_unit, 0, d.unit, d.description⟩
    | none => .error ⟨category, it⟩
  else if category == "purchase" then
    match purchaseLookup t.purchase it sub with
    | some d => .ok ⟨d.co2e_kg_per_unit, d.water_l_per_unit, d.unit, d.description⟩
    | none => .error ⟨category, it⟩
  else .error ⟨category, it⟩

/-- Python truthiness of the `time_of_day` optional string argument. -/
def todTruthy : Option String → Bool
  | none => false
  | some s => !(s == "")

/-- The item substitution performed by `calculate_impact` before lookup
(`impact_engine.py` lines 130-135). -/
def substItem (category item : String) (time_of_day : Option String) : String :=
  if category == "home_energy" && item == "electricity_kwh" && todTruthy time_of_day then
    if time_of_day == some "peak" then "electricity_kwh_peak"
    else if time_of_day == some "off_peak" then "electricity_kwh_offpeak"
    else item
  else item

/-- `calculate_impact(category, item, amount, subcategory, time_of_day)` from
`impact_engine.py` lines 110-142. -/
def calculateImpact (t : Tables) (category item : String) (amount : ℚ)
    (sub : Option String) (time_of_day : Option String) :
    Except FactorError (ℚ × ℚ) :=
  match getFactor t category (substItem category item time_of_day) sub with
  | .error e => .error e
  | .ok f => .ok (roundTo 4 (f.co2e_per_unit * amount), roundTo 2 (f.water_per_unit * amount))

/-! ## Benchmarks -/

/-- One hard-coded benchmark record (`impact_engine.py` lines 204-221). -/
structure Benchmark where
  avg_daily_co2e_kg : ℚ
  avg_daily_water_l : ℚ
  description : String
deriving DecidableEq

/-- `get_category_benchmark(category)` from `impact_engine.py` lines 198-221. -/
def getCategoryBenchmark (category : String) : Benchmark :=
  if category == "mobility" then
    ⟨3.5, 8.0, "Average Korean daily mobility footprint"⟩
  else if category == "purchase" then
    ⟨4.2, 2500, "Average Korean daily consumption footprint"⟩
  else if category == "home_energy" then
    ⟨2.8, 0, "Average Korean household daily energy footprint (per person)"⟩
  else ⟨0, 0, ""⟩

/-- The dict returned by `compare_to_benchmark`. -/
structure BenchmarkComparison where
  co2e_vs_avg_percent : ℚ
  water_vs_avg_percent : ℚ
  co2e_benchmark_kg : ℚ
  water_benchmark_l : ℚ
deriving DecidableEq

/-- `compare_to_benchmark(category, co2e_kg, water_l)` from `impact_engine.py`
lines 224-239. -/
def compareToBenchmark (category : String) (co2e_kg water_l : ℚ) :
    BenchmarkComparison :=
  let b := getCategoryBenchmark category
  let co2e_ratio := if b.avg_daily_co2e_kg > 0 then co2e_kg / b.avg_daily_co2e_kg else 0
  let water_ratio := if b.avg_daily_water_l > 0 then water_l / b.avg_daily_water_l else 0
  { co2e_vs_avg_percent := roundTo 1 ((co2e_ratio - 1) * 100)
    water_vs_avg_percent := roundTo 1 ((water_ratio - 1) * 100)
    co2e_benchmark_kg := b.avg_daily_co2e_kg
    water_benchmark_l := b.avg_daily_water_l }

/-! ## Recommendation engine (`recommendation.py`) -/

/-- A single recommendation rule (`recommendation.py` lines 17-25). -/
structure RecommendationRule where
  category : String
  trigger_item : String
  action : String
  alternative_item : Option String
  rationale : String
  difficulty : String
deriving DecidableEq

/-- The static rule table `RECOMMENDATION_RULES` (`recommendation.py`
lines 29-193), in declaration order. -/
def RECOMMENDATION_RULES : List RecommendationRule := [
  ⟨"mobility", "taxi_ice", "Switch to EV taxi for your next ride",
    some "taxi_ev", "EV taxis produce 76% less CO2 than gasoline taxis", "easy"⟩,
  ⟨"mobility", "taxi_ice", "Use public transit for trips under 5km",
    some "subway", "Subway produces 83% less CO2 per km than taxi", "medium"⟩,
  ⟨"mobility", "personal_car_gasoline", "Consider carpooling or public transit tomorrow",
    some "bus", "Bus travel reduces your per-km emissions by 54%", "medium"⟩,
  ⟨"mobility", "personal_car_gasoline", "Try walking or cycling for short trips under 3km",
    some "bicycle", "Zero emissions and health benefits", "easy"⟩,
  ⟨"mobility", "domestic_flight", "Consider KTX for domestic travel when possible",
    some "train_ktx", "High-speed rail produces 89% less CO2 than flying", "medium"⟩,
  ⟨"purchase", "beef_meal", "Try chicken or fish for one meal tomorrow",
    some "chicken_meal", "Chicken produces 83% less CO2 and uses 77% less water than beef", "easy"⟩,
  ⟨"purchase", "beef_meal", "Explore a vegetarian meal option",
    some "vegetarian_meal", "Vegetarian meals produce 94% less CO2 than beef", "medium"⟩,
  ⟨"purchase", "coffee", "Bring a reusable cup for your coffee",
    none, "Reduces packaging waste and often gets you a discount", "easy"⟩,
  ⟨"purchase", "milk_liter", "Try plant-based milk alternatives",
    some "oat_milk_liter", "Oat milk produces 53% less CO2 and 92% less water than dairy", "easy"⟩,
  ⟨"purchase", "tshirt_fastfashion", "Consider secondhand or sustainable options next time",
    some "tshirt_secondhand", "Secondhand clothing reduces impact by 91%", "medium"⟩,
  ⟨"purchase", "jeans_fastfashion", "Postpone your next jeans purchase and explore secondhand",
    some "jeans_secondhand", "Secondhand jeans save 95% of CO2 and water", "medium"⟩,
  ⟨"purchase", "sneakers_new", "Check for refurbished or secondhand options",
    some "sneakers_secondhand", "Secondhand shoes reduce impact by 90%", "medium"⟩,
  ⟨"purchase", "smartphone_new", "Consider refurbished phones for your next upgrade",
    some "smartphone_refurbished", "Refurbished phones use 79% less resources", "easy"⟩,
  ⟨"purchase", "laptop_new", "Extend your laptop\u0027s life or buy refurbished",
    some "laptop_refurbished", "Refurbished laptops reduce impact by 80%", "medium"⟩,
  ⟨"purchase", "plastic_bag", "Bring reusable bags for shopping",
    some "reusable_bag", "Reusable bags reduce impact by 94% per use", "easy"⟩,
  ⟨"purchase", "bottled_water_500ml", "Use a reusable water bottle",
    some "tap_water_500ml", "Tap water in reusable bottles reduces impact by 99%", "easy"⟩,
  ⟨"home_energy", "electricity_kwh", "Shift high-power activities to off-peak hours",
    some "electricity_kwh_offpeak", "Off-peak electricity has 17% lower carbon intensity", "medium"⟩,
  ⟨"home_energy", "electricity_kwh_peak", "Reduce peak-hour electricity usage tomorrow",
    some "electricity_kwh_offpeak", "Peak hours have 31% higher carbon intensity", "medium"⟩,
  ⟨"home_energy", "natural_gas_m3", "Lower heating by 1-2 degrees and wear layers",
    none, "Each degree reduction saves about 7% of heating energy", "easy"⟩]

/-- The savings dict returned by `calculate_savings`. -/
structure Savings where
  co2e_kg : ℚ
  water_l : ℚ
deriving DecidableEq

/-- `calculate_savings(trigger_item, alternative_item, category, amount)` from
`recommendation.py` lines 196-210: a `FactorNotFoundError` from either lookup
is caught and zero savings are returned. -/
def calculateSavings (t : Tables) (trigger_item alternative_item category : String)
    (amount : ℚ) : Savings :=
  match getFactor t category trigger_item none, getFactor t category alternative_item none with
  | .ok tf, .ok af =>
    ⟨roundTo 4 (max 0 ((tf.co2e_per_unit - af.co2e_per_unit) * amount)),
     roundTo 2 (max 0 ((tf.water_per_unit - af.water_per_unit) * amount))⟩
  | _, _ => ⟨0, 0⟩

/-- One input action dict consumed by `get_recommendations` (fields
`category`, `item`, `amount`, `co2e_kg`). -/
structure ActionRecord where
  category : String
  item : String
  amount : ℚ
  co2e_kg : ℚ
deriving DecidableEq

/-- Per-`(category, item)` running totals (`recommendation.py` lines 234-240). -/
structure Totals where
  amount : ℚ
  co2e_kg : ℚ
deriving DecidableEq

/-- Add one record into the `action_totals` dict, preserving insertion order
(a new key is appended at the end, exactly like a Python dict). -/
def updateTotals (k : String × String) (a c : ℚ) :
    List ((String × String) × Totals) → List ((String × String) × Totals)
  | [] => [(k, ⟨a, c⟩)]
  | (k2, t) :: rest =>
    if k2 = k then (k2, ⟨t.amount + a, t.co2e_kg + c⟩) :: rest
    else (k2, t) :: updateTotals k a c rest

/-- Dict access into the totals association list (first entry with the key,
as in a Python dict; used only to state properties of the aggregation). -/
def findTotals (k : String × String) : List ((String × String) × Totals) → Option Totals
  | [] => none
  | (k2, tot) :: rest => if k2 = k then some tot else findTotals k rest

/-- The `action_totals` aggregation of `get_recommendations`
(`recommendation.py` lines 234-240). -/
def actionTotals (daily_actions : List ActionRecord) :
    List ((String × String) × Totals) :=
  daily_actions.foldl (fun acc r => updateTotals (r.category, r.item) r.amount r.co2e_kg acc) []

/-- One output recommendation dict.  The default recommendations carry no
`trigger_item`/`trigger_amount` keys, modelled by `none`. -/
structure Recommendation where
  priority : ℕ
  category : String
  action : String
  rationale : String
  estimated_savings_co2e_kg : ℚ
  estimated_savings_water_l : ℚ
  difficulty : String
  trigger_item : Option String
  trigger_amount : Option ℚ
deriving DecidableEq

/-- Process one aggregate group against the whole rule table, threading the
`seen_actions` set and the matched list (`recommendation.py` lines 244-278). -/
def matchStep (t : Tables) (st : List String × List Recommendation)
    (g : (String × String) × Totals) : List String × List Recommendation :=
  RECOMMENDATION_RULES.foldl (fun st rule =>
    if rule.category == g.1.1 && rule.trigger_item == g.1.2 then
      let action_key := rule.category ++ ":" ++ rule.action
      if action_key ∈ st.1 then st
      else
        let savings : Savings :=
          match rule.alternative_item with
          | some alt => calculateSavings t rule.trigger_item alt g.1.1 g.2.amount
          | none => ⟨roundTo 4 (g.2.co2e_kg * (2/10)), 0⟩
        (action_key :: st.1,
         st.2 ++ [⟨0, g.1.1, rule.action, rule.rationale, savings.co2e_kg,
                   savings.water_l, rule.difficulty, some g.1.2, some g.2.amount⟩])
    else st) st

/-- The deduplicated matched recommendation list, in emission order (groups in
record first-occurrence order, rules in table order within a group). -/
def matchedRecs (t : Tables) (daily_actions : List ActionRecord) :
    List Recommendation :=
  ((actionTotals daily_actions).foldl (matchStep t) ([], [])).2

/-- Stable insertion step for sorting by estimated CO2e savings descending:
the new element is placed before the first element whose key is not larger,
so elements with equal keys keep their original relative order. -/
def insertRecDesc (r : Recommendation) : List Recommendation → List Recommendation
  | [] => [r]
  | y :: ys =>
    if r.estimated_savings_co2e_kg ≥ y.estimated_savings_co2e_kg then r :: y :: ys
    else y :: insertRecDesc r ys

/-- The stable descending sort performed by `list.sort(key=..., reverse=True)`
at `recommendation.py` lines 281-284 (Python `list.sort` is stable). -/
def sortRecsDesc : List Recommendation → List Recommendation
  | [] => []
  | r :: rs => insertRecDesc r (sortRecsDesc rs)

/-- The fixed default recommendation list (`recommendation.py` lines 304-350). -/
def DEFAULT_RECOMMENDATIONS : List Recommendation := [
  ⟨1, "mobility", "Try walking or cycling for one trip today",
   "Zero-emission transport improves health and reduces carbon footprint",
   0.5, 0, "easy", none, none⟩,
  ⟨2, "purchase", "Choose a plant-based meal option today",
   "Plant-based meals typically have 50-80% lower carbon footprint",
   3.0, 1000, "easy", none, none⟩,
  ⟨3, "home_energy", "Turn off unused lights and appliances",
   "Standby power can account for 5-10% of home energy use",
   0.2, 0, "easy", none, none⟩,
  ⟨4, "purchase", "Bring a reusable bag for your next shopping trip",
   "Single-use plastics contribute to pollution and emissions",
   0.03, 0.5, "easy", none, none⟩,
  ⟨5, "mobility", "Plan your errands to combine trips",
   "Fewer trips mean less fuel and lower emissions",
   1.0, 0, "easy", none, none⟩]

/-- `get_default_recommendations(count)` from `recommendation.py`
lines 302-351. -/
def getDefaultRecommendations (count : ℕ) : List Recommendation :=
  DEFAULT_RECOMMENDATIONS.take count

/-- The sort / truncate / pad tail of `get_recommendations`
(`recommendation.py` lines 280-299). -/
def assembleRecommendations (matched : List Recommendation) (max_recommendations : ℕ) :
    List Recommendation :=
  let base := ((sortRecsDesc matched).take max_recommendations).enum.map
    (fun p => { p.2 with priority := p.1 + 1 })
  if base.length < max_recommendations then
    base ++ (getDefaultRecommendations (max_recommendations - base.length)).enum.map
      (fun p => { p.2 with priority := base.length + p.1 + 1 })
  else base

/-- `get_recommendations(daily_actions, max_recommendations)` from
`recommendation.py` lines 213-299. -/
def getRecommendations (t : Tables) (daily_actions : List ActionRecord)
    (max_recommendations : ℕ) : List Recommendation :=
  if daily_actions = [] then getDefaultRecommendations max_recommendations
  else assembleRecommendations (matchedRecs t daily_actions) max_recommendations

/-! ## Message parser (`chatbot.py`)

Python strings are modelled as `List Char` so that the character-index
arithmetic of `parse_message` (keyword positions, the ±20-character quantity
window) is explicit.  `\d` and `\s` are modelled on their ASCII subsets
(`Char.isDigit` / `Char.isWhitespace`); every character appearing in the
keyword dictionary, the patterns, and the analysed inputs is covered. -/

/-- A parsed action (`chatbot.py` lines 13-20). -/
structure ParsedAction where
  category : String
  item : String
  amount : ℚ
  confidence : ℚ
  original_text : List Char
deriving DecidableEq

/-- `ALL_KEYWORDS` (`chatbot.py` lines 24-125): keyword → (item, category),
as an insertion-ordered association list.  All keys of the four merged dicts
are distinct, so the merge is plain concatenation in declaration order. -/
def ALL_KEYWORDS : List (List Char × String × String) := [
  ("택시".toList, "taxi_ice", "mobility"),
  ("전기택시".toList, "taxi_ev", "mobility"),
  ("버스".toList, "bus", "mobility"),
  ("지하철".toList, "subway", "mobility"),
  ("자전거".toList, "bicycle", "mobility"),
  ("걸어".toList, "walking", "mobility"),
  ("도보".toList, "walking", "mobility"),
  ("차".toList, "car_gasoline", "mobility"),
  ("자동차".toList, "car_gasoline", "mobility"),
  ("전기차".toList, "car_ev", "mobility"),
  ("오토바이".toList, "motorcycle", "mobility"),
  ("킥보드".toList, "escooter", "mobility"),
  ("taxi".toList, "taxi_ice", "mobility"),
  ("uber".toList, "taxi_ice", "mobility"),
  ("bus".toList, "bus", "mobility"),
  ("subway".toList, "subway", "mobility"),
  ("metro".toList, "subway", "mobility"),
  ("bike".toList, "bicycle", "mobility"),
  ("bicycle".toList, "bicycle", "mobility"),
  ("walk".toList, "walking", "mobility"),
  ("car".toList, "car_gasoline", "mobility"),
  ("drive".toList, "car_gasoline", "mobility"),
  ("소고기".toList, "beef_meal", "purchase"),
  ("쇠고기".toList, "beef_meal", "purchase"),
  ("스테이크".toList, "beef_meal", "purchase"),
  ("돼지고기".toList, "pork_meal", "purchase"),
  ("삼겹살".toList, "pork_meal", "purchase"),
  ("닭고기".toList, "chicken_meal", "purchase"),
  ("치킨".toList, "chicken_meal", "purchase"),
  ("생선".toList, "fish_meal", "purchase"),
  ("채식".toList, "vegetarian_meal", "purchase"),
  ("비건".toList, "vegan_meal", "purchase"),
  ("커피".toList, "coffee", "purchase"),
  ("아메리카노".toList, "coffee", "purchase"),
  ("라떼".toList, "coffee", "purchase"),
  ("우유".toList, "milk_liter", "purchase"),
  ("beef".toList, "beef_meal", "purchase"),
  ("steak".toList, "beef_meal", "purchase"),
  ("pork".toList, "pork_meal", "purchase"),
  ("chicken".toList, "chicken_meal", "purchase"),
  ("fish".toList, "fish_meal", "purchase"),
  ("vegetarian".toList, "vegetarian_meal", "purchase"),
  ("vegan".toList, "vegan_meal", "purchase"),
  ("coffee".toList, "coffee", "purchase"),
  ("milk".toList, "milk_liter", "purchase"),
  ("티셔츠".toList, "tshirt_fastfashion", "purchase"),
  ("옷".toList, "tshirt_fastfashion", "purchase"),
  ("청바지".toList, "jeans_fastfashion", "purchase"),
  ("바지".toList, "jeans_fastfashion", "purchase"),
  ("신발".toList, "sneakers_new", "purchase"),
  ("운동화".toList, "sneakers_new", "purchase"),
  ("중고".toList, "tshirt_secondhand", "purchase"),
  ("tshirt".toList, "tshirt_fastfashion", "purchase"),
  ("t-shirt".toList, "tshirt_fastfashion", "purchase"),
  ("shirt".toList, "tshirt_fastfashion", "purchase"),
  ("jeans".toList, "jeans_fastfashion", "purchase"),
  ("pants".toList, "jeans_fastfashion", "purchase"),
  ("shoes".toList, "sneakers_new", "purchase"),
  ("sneakers".toList, "sneakers_new", "purchase"),
  ("secondhand".toList, "tshirt_secondhand", "purchase"),
  ("used".toList, "tshirt_secondhand", "purchase"),
  ("전기".toList, "electricity_kwh", "home_energy"),
  ("에어컨".toList, "electricity_kwh", "home_energy"),
  ("냉방".toList, "electricity_kwh", "home_energy"),
  ("난방".toList, "natural_gas_m3", "home_energy"),
  ("가스".toList, "natural_gas_m3", "home_energy"),
  ("보일러".toList, "natural_gas_m3", "home_energy"),
  ("샤워".toList, "hot_water_shower", "home_energy"),
  ("electricity".toList, "electricity_kwh", "home_energy"),
  ("electric".toList, "electricity_kwh", "home_energy"),
  ("ac".toList, "electricity_kwh", "home_energy"),
  ("air conditioning".toList, "electricity_kwh", "home_energy"),
  ("heating".toList, "natural_gas_m3", "home_energy"),
  ("gas".toList, "natural_gas_m3", "home_energy"),
  ("shower".toList, "hot_water_shower", "home_energy")]

/-- The unit-alternative groups of the first four `NUMBER_PATTERNS`
(`chatbot.py` lines 128-136); the fifth pattern is the bare number. -/
def UNIT_GROUPS : List (List (List Char)) := [
  ["km".toList, "킬로".toList, "킬로미터".toList],
  ["번".toList, "개".toList, "잔".toList, "벌".toList, "켤레".toList, "인분".toList],
  ["kWh".toList, "킬로와트".toList],
  ["시간".toList, "분".toList]]

/-- Numeric value of a digit run. -/
def digitsVal (ds : List Char) : ℕ :=
  ds.foldl (fun n c => n * 10 + (c.toNat - 48)) 0

/-- Value of a captured number `ds` with optional fractional digits `fs`
(models `float(match.group(1))` exactly for decimal literals). -/
def capturedVal (ds fs : List Char) : ℚ :=
  (digitsVal ds : ℚ) + (digitsVal fs : ℚ) / 10 ^ fs.length

/-- Does one of the unit alternatives match here, after `\s*`
(the alternation tries the listed alternatives in order, but its success is
all the following code observes)? -/
def unitMatches (alts : List (List Char)) (rest : List Char) : Bool :=
  alts.any (fun u => u.isPrefixOf (rest.dropWhile Char.isWhitespace))

/-- Match one `NUMBER_PATTERNS` entry anchored at the start of `s`:
`(\d+(?:\.\d+)?)` then, for the unit-suffixed patterns, `\s*` and a unit
alternative.  Returns the captured value.  The greedy optional fraction is
tried first; if its continuation fails the regex backtracks to the bare
integer capture. -/
def matchNumAt (alts : Option (List (List Char))) (s : List Char) : Option ℚ :=
  let ds := s.takeWhile Char.isDigit
  let rest := s.drop ds.length
  if ds.isEmpty then none
  else
    let tailOk : List Char → Bool := fun r =>
      match alts with
      | none => true
      | some a => unitMatches a r
    let withFrac : Option ℚ :=
      match rest with
      | '.' :: r2 =>
        let fs := r2.takeWhile Char.isDigit
        if fs.isEmpty then none
        else if tailOk (r2.drop fs.length) then some (capturedVal ds fs) else none
      | _ => none
    match withFrac with
    | some v => some v
    | none => if tailOk rest then some (digitsVal ds : ℚ) else none

/-- `re.search` for one `NUMBER_PATTERNS` entry: leftmost starting position
wins. -/
def searchNum (alts : Option (List (List Char))) : List Char → Option ℚ
  | [] => none
  | s@(_ :: rest) =>
    match matchNumAt alts s with
    | some v => some v
    | none => searchNum alts rest

/-- `extract_number(text)` from `chatbot.py` lines 139-145: the five patterns
are tried in order, the first one with a match anywhere in `text` wins, and
`1.0` is the fallback. -/
def extractNumber (text : List Char) : ℚ :=
  let rec go : List (Option (List (List Char))) → ℚ
    | [] => 1
    | p :: ps =>
      match searchNum p text with
      | some v => v
      | none => go ps
  go ((UNIT_GROUPS.map some) ++ [none])

/-- First character index of `needle` in `hay`
(`message_lower.index(keyword)`); `none` models `keyword not in message`. -/
def firstIdx (needle : List Char) : List Char → Option ℕ
  | [] => if needle.isEmpty then some 0 else none
  | hay@(_ :: t) =>
    if needle.isPrefixOf hay then some 0
    else (firstIdx needle t).map (· + 1)

/-- A keyword occurrence: position, keyword, item, category. -/
structure FoundKeyword where
  pos : ℕ
  keyword : List Char
  item : String
  category : String
deriving DecidableEq

/-- Stable ascending insertion by position, modelling
`found_keywords.sort(key=lambda x: x[0])`. -/
def insertByPos (f : FoundKeyword) : List FoundKeyword → List FoundKeyword
  | [] => [f]
  | y :: ys => if f.pos < y.pos then f :: y :: ys else y :: insertByPos f ys

/-- Stable sort of keyword matches by position (`chatbot.py` line 169). -/
def sortByPos : List FoundKeyword → List FoundKeyword
  | [] => []
  | f :: fs => insertByPos f (sortByPos fs)

/-- Deduplication keeping the earliest match per item
(`chatbot.py` lines 171-177). -/
def dedupeByItem : List FoundKeyword → List String → List FoundKeyword
  | [], _ => []
  | f :: rest, seen =>
    if f.item ∈ seen then dedupeByItem rest seen
    else f :: dedupeByItem rest (f.item :: seen)

/-- `parse_message(message)` from `chatbot.py` lines 148-200. -/
def parseMessage (message : List Char) : List ParsedAction :=
  let ml := message.map Char.toLower
  let found := ALL_KEYWORDS.foldl (fun acc kw =>
    match firstIdx kw.1 ml with
    | some pos => acc ++ [⟨pos, kw.1, kw.2.1, kw.2.2⟩]
    | none => acc) []
  let uniq := dedupeByItem (sortByPos found) []
  uniq.map (fun f =>
    let start := f.pos - 20
    let stop := min message.length (f.pos + f.keyword.length + 20)
    let context := (message.drop start).take (stop - start)
    let amount := extractNumber context
    { category := f.category, item := f.item, amount := amount,
      confidence := if amount ≠ 1 then 8/10 else 6/10,
      original_text := message })

/-! ## Spec-side definitions and a concrete modelled table -/

/-- The item resolution as the spec states it: substitute the peak/off-peak
variant key exactly when the category is `home_energy`, the item is
`electricity_kwh`, and `time_of_day` is `peak` or `off_peak` (no substitution
for `standard` or `None`).  Compared against `substItem` from the code. -/
def resolvedItemSpec (category item : String) (time_of_day : Option String) : String :=
  if category = "home_energy" ∧ item = "electricity_kwh" ∧
      (time_of_day = some "peak" ∨ time_of_day = some "off_peak") then
    if time_of_day = some "peak" then "electricity_kwh_peak" else "electricity_kwh_offpeak"
  else item

/-- There is a matching entry for `(category, item, subcategory)` in the
loaded tables, stated independently of the lookup code: the normalised item
appears as a key of the applicable table — for `purchase`, either under the
given (truthy) subcategory or under any non-`"metadata"` subcategory. -/
def hasMatchingEntry (t : Tables) (category item : String) (sub : Option String) : Prop :=
  let i := item.toLower.trim
  (category = "mobility" ∧ ∃ p ∈ t.mobility, p.1 = i) ∨
  (category = "home_energy" ∧ ∃ p ∈ t.home_energy, p.1 = i) ∨
  (category = "purchase" ∧
    ((∃ s, sub = some s ∧ s ≠ "" ∧ ∃ g ∈ t.purchase, g.1 = s ∧ ∃ p ∈ g.2, p.1 = i) ∨
     (∃ g ∈ t.purchase, g.1 ≠ "metadata" ∧ ∃ p ∈ g.2, p.1 = i)))

instance (t : Tables) (category item : String) (sub : Option String) :
    Decidable (hasMatchingEntry t category item sub) := by
  unfold hasMatchingEntry
  infer_instance

/-- Modelled from the spec: the JSON reference tables
`backend/data/emission_factors.json` and `backend/data/product_factors.json`
are not among the given sources (only their loaders and the tests are), so
this concrete table is reconstructed from the values the spec and the tests
pin down (`taxi_ice` 0.21 kgCO2e/km and 0.5 L/km, `taxi_ev` 0.05,
`electricity_kwh` 0.459 with a higher peak and a lower off-peak variant,
`walking`/`bicycle` zero, `beef_meal` 6.5/1850, `tshirt_fastfashion`
5.5/2700).  It is used only to evaluate witnesses and counterexamples on
concrete inputs; all claim theorems quantify over arbitrary tables. -/
def modelTables : Tables where
  mobility := [
    ("taxi_ice", ⟨0.21, 0.5, "Gasoline taxi"⟩),
    ("taxi_ev", ⟨0.05, 0.5, "Electric taxi"⟩),
    ("bus", ⟨0.096, 0.3, "City bus"⟩),
    ("subway", ⟨0.036, 0.2, "Subway"⟩),
    ("walking", ⟨0, 0, "Walking"⟩),
    ("bicycle", ⟨0, 0, "Bicycle"⟩)]
  home_energy := [
    ("electricity_kwh", ⟨0.459, "kWh", "Grid electricity"⟩),
    ("electricity_kwh_peak", ⟨0.601, "kWh", "Peak grid electricity"⟩),
    ("electricity_kwh_offpeak", ⟨0.381, "kWh", "Off-peak grid electricity"⟩),
    ("natural_gas_m3", ⟨2.2, "m3", "Natural gas"⟩)]
  purchase := [
    ("food", [
      ("beef_meal", ⟨6.5, 1850, "meal", "Beef meal"⟩),
      ("chicken_meal", ⟨1.1, 430, "meal", "Chicken meal"⟩),
      ("coffee", ⟨0.28, 130, "cup", "Coffee"⟩)]),
    ("fashion", [
      ("tshirt_fastfashion", ⟨5.5, 2700, "item", "Fast fashion t-shirt"⟩),
      ("tshirt_secondhand", ⟨0.5, 240, "item", "Secondhand t-shirt"⟩)])]

/-! ## Theorems -/

theorem roundTo_zero (p : ℕ) : roundTo p 0 = 0 := by
  simp [roundTo, roundHalfEven]

theorem substItem_eq_resolvedItemSpec (category item : String) (tod : Option String) :
    substItem category item tod = resolvedItemSpec category item tod := by
  unfold substItem resolvedItemSpec todTruthy
  cases tod with
  | none => simp
  | some s =>
    by_cases hc : category = "home_energy" <;> by_cases hi : item = "electricity_kwh" <;>
      by_cases hp : s = "peak" <;> by_cases ho : s = "off_peak" <;>
      simp_all [beq_iff_eq]

/-- C4: for every category, item, amount, subcategory and time of day,
`calculate_impact` returns the factor resolved for the item after the
peak/off-peak substitution (performed exactly when the category is
`home_energy`, the item is `electricity_kwh` and `time_of_day` is `peak` or
`off_peak`), with `co2e` rounded to 4 decimals and water to 2. -/
theorem calculateImpact_eq_resolved_factor (t : Tables) (category item : String)
    (amount : ℚ) (sub : Option String) (tod : Option String) :
    calculateImpact t category item amount sub tod =
      (getFactor t category (resolvedItemSpec category item tod) sub).map
        (fun f => (roundTo 4 (f.co2e_per_unit * amount), roundTo 2 (f.water_per_unit * amount))) := by
  unfold calculateImpact
  rw [substItem_eq_resolvedItemSpec]
  cases h : getFactor t category (resolvedItemSpec category item tod) sub <;>
    simp [Except.map]

/-- C1 counterexample: for `home_energy` the water benchmark is 0, and
`compare_to_benchmark` returns a water deviation of `-100.0`, not `0`. -/
theorem compareToBenchmark_zero_counterexample :
    (getCategoryBenchmark "home_energy").avg_daily_water_l = 0 ∧
    (compareToBenchmark "home_energy" 1 1).water_vs_avg_percent = -100 ∧
    (compareToBenchmark "home_energy" 1 1).water_vs_avg_percent ≠ 0 :=
  ⟨by with_unfolding_all decide, by with_unfolding_all decide, by with_unfolding_all decide⟩

/-- C1 amended: when the benchmark value for a metric is 0, the corresponding
ratio is taken as 0, so the deviation percentage `compare_to_benchmark`
returns for that metric is `-100.0` (reported as 100% below average). -/
theorem compareToBenchmark_zero_benchmark (category : String) (co2e_kg water_l : ℚ) :
    ((getCategoryBenchmark category).avg_daily_co2e_kg = 0 →
      (compareToBenchmark category co2e_kg water_l).co2e_vs_avg_percent = -100) ∧
    ((getCategoryBenchmark category).avg_daily_water_l = 0 →
      (compareToBenchmark category co2e_kg water_l).water_vs_avg_percent = -100) := by
  have hr : roundTo 1 ((0 - 1) * 100) = -100 := by with_unfolding_all decide
  constructor <;> intro h <;>
    simp only [compareToBenchmark, h, gt_iff_lt, lt_self_iff_false, if_false] <;>
    exact hr

theorem compareToBenchmark_zero_benchmark_witness :
    (getCategoryBenchmark "home_energy").avg_daily_water_l = 0 ∧
    (compareToBenchmark "home_energy" 2 3).water_vs_avg_percent = -100 :=
  ⟨by with_unfolding_all decide, (compareToBenchmark_zero_benchmark "home_energy" 2 3).2 (by with_unfolding_all decide)⟩

/-- C2 counterexample: the message `"coffee 1"` contains an explicit number 1
next to the keyword (the bare-number pattern finds it), yet the parsed action
has confidence 0.6, not 0.8. -/
theorem parseMessage_explicit_one_counterexample :
    (parseMessage ("coffee 1".toList)).map (fun a => (a.item, a.amount, a.confidence)) =
      [("coffee", (1 : ℚ), (6/10 : ℚ))] ∧
    searchNum none ("coffee 1".toList) = some 1 ∧
    ((6 : ℚ)/10) ≠ 8/10 :=
  ⟨by with_unfolding_all decide, by with_unfolding_all decide, by with_unfolding_all decide⟩

/-- C2 amended: a parsed action has confidence 0.8 exactly when its extracted
amount differs from 1.0, and 0.6 otherwise — in particular an explicit number
1 found in the quantity window yields 0.6, since the code branches on
`amount != 1.0` rather than on whether a number was found. -/
theorem parseMessage_confidence_from_amount (message : List Char) (a : ParsedAction)
    (ha : a ∈ parseMessage message) :
    a.confidence = if a.amount ≠ 1 then 8/10 else 6/10 := by
  simp only [parseMessage, List.mem_map] at ha
  obtain ⟨f, hf, rfl⟩ := ha
  rfl

theorem parseMessage_confidence_from_amount_witness :
    ((⟨"purchase", "coffee", 2, 8/10, "coffee 2".toList⟩ : ParsedAction) ∈
      parseMessage ("coffee 2".toList)) ∧
    (⟨"purchase", "coffee", 2, 8/10, ("coffee 2".toList)⟩ : ParsedAction).confidence =
      if (⟨"purchase", "coffee", 2, 8/10, ("coffee 2".toList)⟩ : ParsedAction).amount ≠ 1
      then 8/10 else 6/10 :=
  ⟨by with_unfolding_all decide, parseMessage_confidence_from_amount ("coffee 2".toList) _ (by with_unfolding_all decide)⟩

/-- C6: if the factor lookup of either the trigger item or the alternative
item fails, `calculate_savings` returns zero CO2e and zero water savings
instead of propagating the error. -/
theorem calculateSavings_zero_on_missing_factor (t : Tables)
    (trigger_item alternative_item category : String) (amount : ℚ)
    (h : (∃ e, getFactor t category trigger_item none = .error e) ∨
         (∃ e, getFactor t category alternative_item none = .error e)) :
    calculateSavings t trigger_item alternative_item category amount = ⟨0, 0⟩ := by
  rcases h with ⟨e, he⟩ | ⟨e, he⟩
  · simp [calculateSavings, he]
  · cases h1 : getFactor t category trigger_item none <;> simp [calculateSavings, he, h1]

theorem calculateSavings_zero_on_missing_factor_witness :
    (∃ e, getFactor modelTables "mobility" "not_a_real_item" none = .error e) ∧
    calculateSavings modelTables "taxi_ice" "not_a_real_item" "mobility" 3 = ⟨0, 0⟩ :=
  ⟨⟨⟨"mobility", "not_a_real_item"⟩, by with_unfolding_all decide⟩,
   calculateSavings_zero_on_missing_factor modelTables "taxi_ice" "not_a_real_item" "mobility" 3
     (Or.inr ⟨⟨"mobility", "not_a_real_item"⟩, by with_unfolding_all decide⟩)⟩

theorem homeEnergy_factor_water_zero (t : Tables) (item : String) (sub : Option String)
    (f : Factor) (h : getFactor t "home_energy" item sub = .ok f) :
    f.water_per_unit = 0 := by
  unfold getFactor at h
  simp only [String.reduceBEq, Bool.false_eq_true, if_false, if_true, reduceIte] at h
  cases hl : List.lookup (item.toLower.trim) t.home_energy <;> rw [hl] at h <;>
    simp_all
  exact congrArg Factor.water_per_unit h.symm

/-- C9: for every table, every `home_energy` factor returned by `get_factor`
has `water_per_unit = 0` (hard-coded, independent of the reference data), so
`calculate_impact` returns `water_l = 0` for every `home_energy` action. -/
theorem homeEnergy_zero_water (t : Tables) (item : String) (sub : Option String) :
    (∀ f, getFactor t "home_energy" item sub = .ok f → f.water_per_unit = 0) ∧
    (∀ (amount : ℚ) (tod : Option String) (c w : ℚ),
      calculateImpact t "home_energy" item amount sub tod = .ok (c, w) → w = 0) := by
  refine ⟨fun f h => homeEnergy_factor_water_zero t item sub f h, ?_⟩
  intro amount tod c w h
  unfold calculateImpact at h
  cases hg : getFactor t "home_energy" (substItem "home_energy" item tod) sub with
  | error e => rw [hg] at h; exact absurd h (by simp)
  | ok f =>
    rw [hg] at h
    simp only [Except.ok.injEq, Prod.mk.injEq] at h
    have hw := homeEnergy_factor_water_zero t _ sub f hg
    rw [← h.2, hw, zero_mul, roundTo_zero]

theorem homeEnergy_zero_water_witness :
    getFactor modelTables "home_energy" "electricity_kwh" none =
      .ok ⟨0.459, 0, "kWh", "Grid electricity"⟩ ∧
    (⟨0.459, 0, "kWh", "Grid electricity"⟩ : Factor).water_per_unit = 0 :=
  ⟨by with_unfolding_all decide,
   (homeEnergy_zero_water modelTables "electricity_kwh" none).1 _ (by with_unfolding_all decide)⟩

/-- C8: for every table and every `max_count`, `get_recommendations` on an
empty action list returns exactly the prefix of the fixed default list of
that length, in its fixed order, with priority fields `1..k` by position. -/
theorem getRecommendations_empty_defaults (t : Tables) (n : ℕ) :
    getRecommendations t [] n = DEFAULT_RECOMMENDATIONS.take n ∧
    ∀ i (h : i < (DEFAULT_RECOMMENDATIONS.take n).length),
      ((DEFAULT_RECOMMENDATIONS.take n).get ⟨i, h⟩).priority = i + 1 := by
  refine ⟨by simp [getRecommendations, getDefaultRecommendations], ?_⟩
  intro i h
  have h5 : i < DEFAULT_RECOMMENDATIONS.length := by
    rw [List.length_take] at h
    omega
  rw [List.get_eq_getElem, List.getElem_take]
  have h5c : i < 5 := h5
  interval_cases i <;> rfl

theorem getRecommendations_empty_defaults_witness :
    getRecommendations modelTables [] 3 = DEFAULT_RECOMMENDATIONS.take 3 ∧
    ((DEFAULT_RECOMMENDATIONS.take 3).get ⟨2, by with_unfolding_all decide⟩).priority = 2 + 1 :=
  ⟨(getRecommendations_empty_defaults modelTables 3).1,
   (getRecommendations_empty_defaults modelTables 3).2 2 (by with_unfolding_all decide)⟩

theorem length_insertRecDesc (r : Recommendation) (l : List Recommendation) :
    (insertRecDesc r l).length = l.length + 1 := by
  induction l with
  | nil => rfl
  | cons y ys ih =>
    simp only [insertRecDesc]
    split <;> simp [ih]

theorem length_sortRecsDesc (l : List Recommendation) :
    (sortRecsDesc l).length = l.length := by
  induction l with
  | nil => rfl
  | cons r rs ih => simp [sortRecsDesc, length_insertRecDesc, ih]

theorem length_getDefaultRecommendations (c : ℕ) :
    (getDefaultRecommendations c).length = min c 5 := by
  have h : DEFAULT_RECOMMENDATIONS.length = 5 := rfl
  rw [getDefaultRecommendations, List.length_take, h]

/-- C10: for every non-empty action list and every `max_count`, the output of
`get_recommendations` has length `min max_count (m + 5)` where `m` is the
number of matched (deduplicated) rule recommendations and 5 is the size of
the fixed default list; in particular the result is shorter than `max_count`
whenever `max_count` exceeds `m + 5`. -/
theorem getRecommendations_length (t : Tables) (recs : List ActionRecord) (n : ℕ)
    (h : recs ≠ []) :
    (getRecommendations t recs n).length = min n ((matchedRecs t recs).length + 5) := by
  rw [getRecommendations, if_neg h]
  simp only [assembleRecommendations]
  split <;>
    simp_all only [List.length_append, List.length_map, List.enum_length, List.length_take,
      length_sortRecsDesc, length_getDefaultRecommendations] <;>
    omega

theorem getRecommendations_length_witness :
    (([⟨"mobility", "taxi_ice", 10, 2.1⟩] : List ActionRecord) ≠ []) ∧
    (getRecommendations modelTables [⟨"mobility", "taxi_ice", 10, 2.1⟩] 10).length =
      min 10 ((matchedRecs modelTables [⟨"mobility", "taxi_ice", 10, 2.1⟩]).length + 5) :=
  ⟨by with_unfolding_all decide,
   getRecommendations_length modelTables [⟨"mobility", "taxi_ice", 10, 2.1⟩] 10
     (by with_unfolding_all decide)⟩

theorem filter_insertRecDesc (k : ℚ) (r : Recommendation) (l : List Recommendation) :
    (insertRecDesc r l).filter (fun x => decide (x.estimated_savings_co2e_kg = k)) =
      (r :: l).filter (fun x => decide (x.estimated_savings_co2e_kg = k)) := by
  induction l with
  | nil => rfl
  | cons y ys ih =>
    simp only [insertRecDesc]
    by_cases hge : r.estimated_savings_co2e_kg ≥ y.estimated_savings_co2e_kg
    · rw [if_pos hge]
    · rw [if_neg hge]
      push_neg at hge
      by_cases hr : r.estimated_savings_co2e_kg = k <;>
        by_cases hy : y.estimated_savings_co2e_kg = k
      · rw [hr, hy] at hge
        exact absurd hge (lt_irrefl k)
      · simp [List.filter_cons, hr, hy, ih]
      · simp [List.filter_cons, hr, hy, ih]
      · simp [List.filter_cons, hr, hy, ih]

theorem sortRecsDesc_stable_filter (l : List Recommendation) (k : ℚ) :
    (sortRecsDesc l).filter (fun x => decide (x.estimated_savings_co2e_kg = k)) =
      l.filter (fun x => decide (x.estimated_savings_co2e_kg = k)) := by
  induction l with
  | nil => rfl
  | cons r rs ih =>
    simp only [sortRecsDesc]
    rw [filter_insertRecDesc]
    simp only [List.filter_cons]
    rw [ih]

/-- C3 counterexample: two matched recommendations with equal estimated CO2e
savings (both 1.0) are returned in aggregate-group order (natural gas first,
coffee second) although the coffee rule precedes the natural-gas rule in the
static rule table (index 7 versus index 18). -/
theorem equal_savings_not_rule_order_counterexample :
    ((getRecommendations modelTables
        [⟨"home_energy", "natural_gas_m3", 1, 5⟩, ⟨"purchase", "coffee", 1, 5⟩] 2).map
      (fun r => (r.action, r.estimated_savings_co2e_kg)) =
      [("Lower heating by 1-2 degrees and wear layers", (1 : ℚ)),
       ("Bring a reusable cup for your coffee", (1 : ℚ))]) ∧
    (RECOMMENDATION_RULES.map (fun r => r.action)).indexOf
      "Bring a reusable cup for your coffee" = 7 ∧
    (RECOMMENDATION_RULES.map (fun r => r.action)).indexOf
      "Lower heating by 1-2 degrees and wear layers" = 18 :=
  ⟨by with_unfolding_all decide, by with_unfolding_all decide, by with_unfolding_all decide⟩

/-- C3 amended: the sort over savings is stable, so recommendations with
equal estimated CO2e savings keep their relative order in the pre-sort
matched list — which lists aggregate groups in record first-occurrence order
and follows the rule-table order only within a single group, not globally. -/
theorem equal_savings_keep_matched_order (t : Tables) (recs : List ActionRecord) (k : ℚ) :
    (sortRecsDesc (matchedRecs t recs)).filter
        (fun r => decide (r.estimated_savings_co2e_kg = k)) =
      (matchedRecs t recs).filter (fun r => decide (r.estimated_savings_co2e_kg = k)) :=
  sortRecsDesc_stable_filter (matchedRecs t recs) k

theorem findTotals_updateTotals (k k2 : String × String) (a c : ℚ)
    (l : List ((String × String) × Totals)) :
    findTotals k (updateTotals k2 a c l) =
      if k = k2 then
        (match findTotals k l with
         | some tot => some ⟨tot.amount + a, tot.co2e_kg + c⟩
         | none => some ⟨a, c⟩)
      else findTotals k l := by
  induction l with
  | nil =>
    simp only [updateTotals, findTotals]
    by_cases h : k = k2
    · subst h
      simp
    · rw [if_neg (fun hh => h hh.symm), if_neg h]
  | cons p rest ih =>
    obtain ⟨k3, tot3⟩ := p
    simp only [updateTotals]
    by_cases h3 : k3 = k2
    · subst h3
      simp only [if_pos rfl, findTotals]
      by_cases hk : k3 = k
      · subst hk
        simp [findTotals]
      · rw [if_neg hk, if_neg (fun hh : k = k3 => hk hh.symm)]
        simp [findTotals, hk]
    · rw [if_neg h3]
      simp only [findTotals]
      by_cases hk : k3 = k
      · subst hk
        rw [if_pos rfl, if_neg h3, if_pos rfl]
      · simp only [if_neg hk]
        rw [ih]

theorem findTotals_actionTotals_foldl (recs : List ActionRecord) :
    ∀ (acc : List ((String × String) × Totals)) (k : String × String),
      findTotals k (recs.foldl
          (fun acc r => updateTotals (r.category, r.item) r.amount r.co2e_kg acc) acc) =
        match findTotals k acc with
        | some tot =>
          some ⟨tot.amount + ((recs.filter (fun r => decide ((r.category, r.item) = k))).map
                  ActionRecord.amount).sum,
                tot.co2e_kg + ((recs.filter (fun r => decide ((r.category, r.item) = k))).map
                  ActionRecord.co2e_kg).sum⟩
        | none =>
          if (recs.filter (fun r => decide ((r.category, r.item) = k))).isEmpty then none
          else some ⟨((recs.filter (fun r => decide ((r.category, r.item) = k))).map
                       ActionRecord.amount).sum,
                     ((recs.filter (fun r => decide ((r.category, r.item) = k))).map
                       ActionRecord.co2e_kg).sum⟩ := by
  induction recs with
  | nil =>
    intro acc k
    cases h : findTotals k acc <;> simp [h]
  | cons r rs ih =>
    intro acc k
    rw [List.foldl_cons, ih]
    rw [findTotals_updateTotals]
    by_cases hk : k = (r.category, r.item)
    · rw [if_pos hk]
      have hp : (decide ((r.category, r.item) = k)) = true := by simp [hk]
      cases h : findTotals k acc <;>
        simp [h, List.filter_cons, hp, add_assoc]
    · rw [if_neg hk]
      have hp : (decide ((r.category, r.item) = k)) = false :=
        decide_eq_false (fun hh => hk hh.symm)
      cases h : findTotals k acc <;>
        simp [h, List.filter_cons, hp]

/-- C5: `get_recommendations` matches rules against per-`(category, item)`
aggregates whose amount and co2e are the sums over all records sharing that
key; in particular two `taxi_ice` records of amount 5 each are one aggregate
of amount 10 — the whole computation equals the one for a single merged
record, not two separate matches. -/
theorem aggregation_by_key_sums (recs : List ActionRecord) :
    (∀ (k : String × String),
      findTotals k (actionTotals recs) =
        if (recs.filter (fun r => decide ((r.category, r.item) = k))).isEmpty then none
        else some ⟨((recs.filter (fun r => decide ((r.category, r.item) = k))).map
                     ActionRecord.amount).sum,
                   ((recs.filter (fun r => decide ((r.category, r.item) = k))).map
                     ActionRecord.co2e_kg).sum⟩) ∧
    (∀ (t : Tables) (c1 c2 : ℚ) (n : ℕ),
      getRecommendations t
          [⟨"mobility", "taxi_ice", 5, c1⟩, ⟨"mobility", "taxi_ice", 5, c2⟩] n =
        getRecommendations t [⟨"mobility", "taxi_ice", 10, c1 + c2⟩] n) := by
  constructor
  · intro k
    rw [actionTotals, findTotals_actionTotals_foldl recs [] k]
    simp [findTotals]
  · intro t c1 c2 n
    have ht : actionTotals [⟨"mobility", "taxi_ice", 5, c1⟩, ⟨"mobility", "taxi_ice", 5, c2⟩] =
        actionTotals [⟨"mobility", "taxi_ice", 10, c1 + c2⟩] := by
      simp [actionTotals, updateTotals]
      norm_num
    simp only [getRecommendations, matchedRecs, ht]
    simp

theorem lookup_eq_none_of_forall {β : Type} (l : List (String × β)) (k : String)
    (h : ∀ p ∈ l, p.1 ≠ k) : List.lookup k l = none := by
  induction l with
  | nil => rfl
  | cons p rest ih =>
    obtain ⟨a, b⟩ := p
    have ha : ¬ (k = a) := fun hh => h (a, b) (by simp) hh.symm
    have hb : (k == a) = false := by
      simpa using ha
    simp only [List.lookup, hb]
    exact ih (fun q hq => h q (List.mem_cons_of_mem _ hq))

theorem mem_of_lookup_eq_some {β : Type} (l : List (String × β)) (k : String) (b : β)
    (h : List.lookup k l = some b) : (k, b) ∈ l := by
  induction l with
  | nil => simp [List.lookup] at h
  | cons p rest ih =>
    obtain ⟨a, c⟩ := p
    by_cases hk : k = a
    · subst hk
      simp only [List.lookup, beq_self_eq_true] at h
      simp only [Option.some.injEq] at h
      subst h
      exact List.mem_cons_self _ _
    · have hb : (k == a) = false := by simpa using hk
      simp only [List.lookup, hb] at h
      exact List.mem_cons_of_mem _ (ih h)

theorem scanSubcats_none (item : String) (pd : List (String × List (String × PurchaseEntry)))
    (h : ∀ g ∈ pd, g.1 ≠ "metadata" → ∀ p ∈ g.2, p.1 ≠ item) :
    scanSubcats item pd = none := by
  induction pd with
  | nil => rfl
  | cons g rest ih =>
    obtain ⟨name, items⟩ := g
    simp only [scanSubcats]
    by_cases hm : name = "metadata"
    · rw [if_pos (by simp [hm])]
      exact ih (fun g2 hg => h g2 (List.mem_cons_of_mem _ hg))
    · rw [if_neg (by simp [hm])]
      have hl : List.lookup item items = none :=
        lookup_eq_none_of_forall items item
          (fun p hp => h (name, items) (List.mem_cons_self _ _) hm p hp)
      rw [hl]
      exact ih (fun g2 hg => h g2 (List.mem_cons_of_mem _ hg))

theorem purchaseLookup_none (pd : List (String × List (String × PurchaseEntry)))
    (item : String) (sub : Option String)
    (hsub : ∀ s, sub = some s → s ≠ "" →
      ∀ g ∈ pd, g.1 = s → ∀ p ∈ g.2, p.1 ≠ item)
    (hall : ∀ g ∈ pd, g.1 ≠ "metadata" → ∀ p ∈ g.2, p.1 ≠ item) :
    purchaseLookup pd item sub = none := by
  have hscan := scanSubcats_none item pd hall
  unfold purchaseLookup
  cases sub with
  | none => simpa using hscan
  | some s =>
    dsimp only
    by_cases he : s = ""
    · simp only [if_pos (by simp [he] : (s == "") = true)]
      simpa using hscan
    · rw [if_neg (by simp [he] : ¬ (s == "") = true)]
      cases hps : List.lookup s pd with
      | none => simpa using hscan
      | some items =>
        have hmem : (s, items) ∈ pd := mem_of_lookup_eq_some pd s items hps
        have hnone : List.lookup item items = none :=
          lookup_eq_none_of_forall items item
            (fun p hp => hsub s rfl he (s, items) hmem rfl p hp)
        simp [hnone, hscan]

/-- C7: for every `(category, item, subcategory)` with no matching entry in
the loaded tables, `get_factor` raises `FactorNotFoundError`, and
`calculate_impact` propagates the error of its factor lookup unchanged — it
never turns a lookup failure into a zero-impact result. -/
theorem getFactor_unknown_error (t : Tables) (category item : String) (sub : Option String)
    (h : ¬ hasMatchingEntry t category item sub) :
    getFactor t category item sub = .error ⟨category, item.toLower.trim⟩ ∧
    ∀ (amount : ℚ) (tod : Option String) (e : FactorError),
      getFactor t category (substItem category item tod) sub = .error e →
      calculateImpact t category item amount sub tod = .error e := by
  constructor
  · simp only [hasMatchingEntry] at h
    push_neg at h
    obtain ⟨h1, h2, h3⟩ := h
    simp only [getFactor]
    by_cases hc1 : category = "mobility"
    · rw [if_pos (by simp [hc1])]
      rw [lookup_eq_none_of_forall _ _ (h1 hc1)]
    · rw [if_neg (by simp [hc1])]
      by_cases hc2 : category = "home_energy"
      · rw [if_pos (by simp [hc2])]
        rw [lookup_eq_none_of_forall _ _ (h2 hc2)]
      · rw [if_neg (by simp [hc2])]
        by_cases hc3 : category = "purchase"
        · rw [if_pos (by simp [hc3])]
          obtain ⟨hD, hE⟩ := h3 hc3
          rw [purchaseLookup_none t.purchase _ sub
            (fun s hs hne g hg hgs p hp => hD s hs hne g hg hgs p hp) hE]
        · rw [if_neg (by simp [hc3])]
  · intro amount tod e he
    unfold calculateImpact
    rw [he]

theorem getFactor_unknown_error_witness :
    (¬ hasMatchingEntry modelTables "mobility" "not_a_real_item" none) ∧
    getFactor modelTables "mobility" "not_a_real_item" none =
      .error ⟨"mobility", "not_a_real_item"⟩ ∧
    calculateImpact modelTables "mobility" "not_a_real_item" 5 none none =
      .error ⟨"mobility", "not_a_real_item"⟩ :=
  ⟨by with_unfolding_all decide,
   by
    have hh := (getFactor_unknown_error modelTables "mobility" "not_a_real_item" none
      (by with_unfolding_all decide)).1
    with_unfolding_all exact hh,
   (getFactor_unknown_error modelTables "mobility" "not_a_real_item" none
      (by with_unfolding_all decide)).2 5 none ⟨"mobility", "not_a_real_item"⟩
      (by with_unfolding_all decide)⟩

end ImpactCoach
